import Mathlib

/-!
Shallow embedding of the qibo-tii-provider job-lifecycle client
(`qibo_tii_provider.tiiprovider`). The repository ships only the test suite
and an example; the provider module itself is absent, so its operations are
modelled from the specification, with the observable call shapes pinned by
the mock assertions in `tests/test_tiiqprovider.py` (which URLs are hit, with
which arguments, how many times, what is returned or raised).

The external collaborators (HTTP transport, tar/gzip codec, numeric result
loader, temporary-file factory) are modelled as explicit parameters: scripted
responses, an abstract archive decoder, an abstract loader function and an
explicit temporary-file path, exactly as the tests substitute them by mocking.
-/

/-- JSON-like values appearing in the client's request and response bodies. -/
inductive JVal where
  | str : String → JVal
  | num : Nat → JVal
  | null : JVal
deriving DecidableEq, Repr

/-- An HTTP response as the client observes it: status code, decoded JSON
body, headers, optional raw text content and the streamed body chunks
(`iter_content`). Bytes are modelled as lists of naturals. -/
structure Response where
  status_code : Nat
  json : List (String × JVal)
  headers : List (String × String)
  content : Option String
  iter_content : List (List Nat)
deriving DecidableEq, Repr

/-- Errors of the client, from `qibo_tii_provider.config` and the external
collaborators (`requests.HTTPError`, `tarfile.ReadError`, Python's
`AssertionError`, `FileNotFoundError`, `KeyError`). -/
inductive ProviderError where
  | malformedResponseError
  | jobPostServerError (message : String)
  | httpError (code : Nat)
  | assertionError
  | tarReadError
  | fileNotFoundError
  | keyError
deriving DecidableEq, Repr

/-- Requests issued by the client, as recorded by the mocked transport:
a GET is called with a URL and (possibly empty) extra headers, a POST with a
URL, a JSON body and extra headers. -/
inductive Request where
  | get (url : String) (headers : List (String × String))
  | post (url : String) (body : List (String × JVal)) (headers : List (String × String))
deriving DecidableEq, Repr

/-- Extra headers the client attached to a request. -/
def Request.extraHeaders : Request → List (String × String)
  | .get _ hs => hs
  | .post _ _ hs => hs

/-- A bearer credential header for the given token. -/
def hasBearerHeader (token : String) (r : Request) : Prop :=
  ("Authorization", "Bearer " ++ token) ∈ r.extraHeaders

instance (token : String) (r : Request) : Decidable (hasBearerHeader token r) := by
  unfold hasBearerHeader; infer_instance

/-- Lookup in an association list of string keys (models Python dict access
on response JSON bodies and headers). -/
def alistLookup {α : Type} : List (String × α) → String → Option α
  | [], _ => none
  | (k, v) :: rest, key => if k = key then some v else alistLookup rest key

/-- Modelled from the spec (§4.1 ResponseValidator): `check_response_has_keys`
inspects the decoded JSON body and fails with `MalformedResponseError` if any
required key is absent. -/
def check_response_has_keys (response : Response) (keys : List String) :
    Except ProviderError Unit :=
  if keys.all fun k => (alistLookup response.json k).isSome then .ok ()
  else .error .malformedResponseError

/-- URL of the version-negotiation endpoint. -/
def qibo_version_url (base : String) : String := base ++ "qibo_version/"

/-- URL of the submission endpoint. -/
def run_circuit_url (base : String) : String := base ++ "run_circuit/"

/-- URL of the polling / result endpoint for a job. -/
def get_result_url (base : String) (pid : String) : String :=
  base ++ "get_result/" ++ pid ++ "/"

/-- Modelled from the spec (§4.2 VersionGuard): validate that the response
body has key `qibo_version` and assert its value equals the locally installed
qibo version string; a mismatch is an assertion-style fatal error. -/
def check_client_server_qibo_versions (localVersion : String)
    (response : Response) : Except ProviderError Unit :=
  match check_response_has_keys response ["qibo_version"] with
  | .error e => .error e
  | .ok _ =>
    match alistLookup response.json "qibo_version" with
    | some (.str remote) =>
        if remote = localVersion then .ok () else .error .assertionError
    | _ => .error .assertionError

/-- The client's state after construction: the caller-supplied token and the
job identifier of the in-flight job, if any. -/
structure Client where
  token : String
  pid : Option String
deriving DecidableEq, Repr

/-- Outcome of client construction: the requests issued during construction
and the constructed client (or the construction-time failure). -/
structure InitResult where
  requests : List Request
  client : Except ProviderError Client
deriving Repr

/-- Modelled from the spec (§4.2) and pinned by the tests: construction of
`TIIProvider(token)` issues exactly one GET to `{base}qibo_version/` — the
test asserts `requests.get` is called once with the URL as its only
argument, so no extra headers are attached — and hard-fails on a version
mismatch. `get` is the scripted transport. -/
def TIIProvider_init (base : String) (token : String) (localVersion : String)
    (get : String → Response) : InitResult :=
  let url := qibo_version_url base
  let response := get url
  { requests := [.get url []]
    client :=
      match check_client_server_qibo_versions localVersion response with
      | .ok _ => .ok { token := token, pid := none }
      | .error e => .error e }

/-- Sentinel body with which the server answers a status poll while the job
is still queued or running. -/
def JOB_IN_PROGRESS_CONTENT : String := "Job still in progress"

/-- Modelled from the spec (§4.4 JobPoller): loop issuing GETs until a
response no longer carries the in-progress sentinel content, then return that
final response. The scripted response list replaces the live endpoint; the
result pairs the number of GETs issued with the final response, and is `none`
when the script is exhausted while still pending (the real loop would keep
polling forever). -/
def wait_for_response_to_get_request : List Response → Option (Nat × Response)
  | [] => none
  | r :: rest =>
    if r.content = some JOB_IN_PROGRESS_CONTENT then
      match wait_for_response_to_get_request rest with
      | none => none
      | some (n, final) => some (n + 1, final)
    else some (1, r)

/-- File paths as segment lists; `{results_base}/{pid}/results.npy` becomes
`results_base ++ [pid, "results.npy"]`. -/
abbrev FPath := List String

/-- Append one segment to a directory path. -/
def pathJoin (dir : FPath) (name : String) : FPath := dir ++ [name]

/-- The file system as an association list from paths to byte contents; the
most recent write shadows older entries. -/
abbrev FS := List (FPath × List Nat)

/-- Content of the file at a path, if it exists. -/
def fsLookup : FS → FPath → Option (List Nat)
  | [], _ => none
  | (q, c) :: rest, p => if q = p then some c else fsLookup rest p

/-- Write (create or overwrite) a file. -/
def fsWrite (fs : FS) (p : FPath) (c : List Nat) : FS := (p, c) :: fs

/-- Remove a file (all shadowed entries included), as `os.remove`. -/
def fsErase : FS → FPath → FS
  | [], _ => []
  | (q, c) :: rest, p =>
    if q = p then fsErase rest p else (q, c) :: fsErase rest p

/-- Modelled from the spec (§4.5 stream-to-file): write the response's byte
chunks sequentially to a freshly created temporary file and return its path.
The temporary-file factory is external (the tests monkey-patch it to a fixed
path), so the fresh path is the explicit `tmpName` parameter. -/
def _write_stream_to_tmp_file (tmpName : FPath) (fs : FS)
    (stream : List (List Nat)) : FPath × FS :=
  (tmpName, fsWrite fs tmpName stream.flatten)

/-- An abstract gzip-tar codec: decodes a byte string into the archive's
members (name and content) when it is a valid compressed tar archive, `none`
otherwise. The tar library is an external collaborator. -/
abbrev TarDecoder := List Nat → Option (List (String × List Nat))

/-- Modelled from the spec (§4.5): open the file at `src` as a compressed tar
archive and extract every member into the destination directory; a file that
is not such an archive raises the typed archive read error
(`tarfile.ReadError`), a missing file the file-not-found error. -/
def _extract_archive_to_folder (decode : TarDecoder) (fs : FS)
    (src : FPath) (dest : FPath) : Except ProviderError FS :=
  match fsLookup fs src with
  | none => .error .fileNotFoundError
  | some bytes =>
    match decode bytes with
    | none => .error .tarReadError
    | some members =>
        .ok (members.foldl (fun acc m => fsWrite acc (pathJoin dest m.1) m.2) fs)

/-- Modelled from the spec (§4.5, §3 ResultArchive): stream the chunks to a
temporary archive file, extract it into the results folder, and delete the
temporary file unconditionally — on the success path and on the extraction
failure path alike (scoped-resource discipline); an extraction failure still
propagates as the typed error. Returns the outcome together with the final
file system. -/
def _save_and_unpack_stream_response_to_folder (decode : TarDecoder)
    (tmpName : FPath) (fs : FS) (stream : List (List Nat)) (dest : FPath) :
    Except ProviderError Unit × FS :=
  let sf := _write_stream_to_tmp_file tmpName fs stream
  match _extract_archive_to_folder decode sf.2 sf.1 dest with
  | .ok fs2 => (.ok (), fsErase fs2 sf.1)
  | .error e => (.error e, fsErase sf.2 sf.1)

/-- The server-supplied `message` field of a response body, defaulting to the
empty string. -/
def messageOf (response : Response) : String :=
  match alistLookup response.json "message" with
  | some (.str msg) => msg
  | _ => ""

/-- The submission payload: serialized circuit, shot count and device
selector (spec §3 SubmissionPayload, §6). -/
def post_payload (circuitRaw : String) (nshots : Nat) (device : String) :
    List (String × JVal) :=
  [("circuit", .str circuitRaw), ("nshots", .num nshots),
   ("device", .str device)]

/-- Modelled from the spec (§4.3 JobSubmitter), acting on the POST response:
raise the HTTP-layer error on a failure status code (`raise_for_status`),
validate keys `pid` and `message`, fail with `JobPostServerError` carrying
the server message when `pid` is null, and return `pid` as the job
identifier otherwise. -/
def _post_circuit (response : Response) : Except ProviderError String :=
  if 400 ≤ response.status_code ∧ response.status_code < 600 then
    .error (.httpError response.status_code)
  else
    match check_response_has_keys response ["pid", "message"] with
    | .error e => .error e
    | .ok _ =>
      match alistLookup response.json "pid" with
      | some (.str pid) => .ok pid
      | some (.num n) => .ok (toString n)
      | _ => .error (.jobPostServerError (messageOf response))

/-- Observable outcome of result retrieval: the requests issued, the paths
the external result loader was invoked with (in order), the final file
system, and the returned value or propagated error. -/
structure GetResultOut (α : Type) where
  requests : List Request
  loaderCalls : List FPath
  fs : FS
  outcome : Except ProviderError (Option α)
deriving Repr

/-- Modelled from the spec (§4.5 ResultFetcher, §4.4): `_get_result` polls
`{base}get_result/{pid}/` until the response no longer carries the
in-progress sentinel (each poll a GET with the URL as only argument, per the
mocked transport); if the final response's `Job-Status` header is `error`,
return no result without touching the loader; otherwise stream-and-extract
the archive into `{results_base}/{pid}/` and hand
`{results_base}/{pid}/results.npy` to the external result loader, returning
its value. `none` models a poll script exhausted while still pending. -/
def _get_result {α : Type} (decode : TarDecoder) (load_result : FPath → α)
    (base : String) (resultsBase : FPath) (tmpName : FPath) (pid : String)
    (fs : FS) (pollResponses : List Response) : Option (GetResultOut α) :=
  let url := get_result_url base pid
  match wait_for_response_to_get_request pollResponses with
  | none => none
  | some (n, response) =>
    let requests := List.replicate n (Request.get url [])
    let results_folder := pathJoin resultsBase pid
    match alistLookup response.headers "Job-Status" with
    | none => some ⟨requests, [], fs, .error .keyError⟩
    | some status =>
      if status = "error" then
        some ⟨requests, [], fs, .ok none⟩
      else
        match _save_and_unpack_stream_response_to_folder decode tmpName fs
            response.iter_content results_folder with
        | (.ok _, fs2) =>
          let results_path := pathJoin results_folder "results.npy"
          some ⟨requests, [results_path], fs2, .ok (some (load_result results_path))⟩
        | (.error e, fs2) => some ⟨requests, [], fs2, .error e⟩

/-- Library-supplied default shot count for `run_circuit` (as used by the
shipped example). -/
def DEFAULT_NSHOTS : Nat := 100

/-- Library-supplied default device selector for `run_circuit` (as used by
the shipped example). -/
def DEFAULT_DEVICE : String := "sim"

/-- Modelled from the spec (§4.6 JobClient): `run_circuit` posts the circuit
(POST to `{base}run_circuit/` with the payload as JSON body, per the mocked
transport's call shape); a server-reported post failure is caught and the
method stops and returns nothing; any other submission error propagates; on
success it retrieves the result via `_get_result` for the returned job
identifier. -/
def run_circuit {α : Type} (decode : TarDecoder) (load_result : FPath → α)
    (base : String) (resultsBase : FPath) (tmpName : FPath)
    (postResponse : Response) (pollResponses : List Response) (fs : FS)
    (circuitRaw : String) (nshots : Nat) (device : String) :
    Option (GetResultOut α) :=
  let postReq := Request.post (run_circuit_url base)
    (post_payload circuitRaw nshots device) []
  match _post_circuit postResponse with
  | .error (.jobPostServerError _) => some ⟨[postReq], [], fs, .ok none⟩
  | .error e => some ⟨[postReq], [], fs, .error e⟩
  | .ok pid =>
    match _get_result decode load_result base resultsBase tmpName pid fs
        pollResponses with
    | none => none
    | some out =>
      some ⟨postReq :: out.requests, out.loaderCalls, out.fs, out.outcome⟩

/-- Modelled from the spec and the tests: calling `run_circuit` with only the
circuit argument, letting the optional shot count and device parameters take
their library-supplied defaults. -/
def run_circuit_default {α : Type} (decode : TarDecoder)
    (load_result : FPath → α) (base : String) (resultsBase : FPath)
    (tmpName : FPath) (postResponse : Response)
    (pollResponses : List Response) (fs : FS) (circuitRaw : String) :
    Option (GetResultOut α) :=
  run_circuit decode load_result base resultsBase tmpName postResponse
    pollResponses fs circuitRaw DEFAULT_NSHOTS DEFAULT_DEVICE

/-! Shared lemmas about the file-system model. -/

lemma fsLookup_fsWrite_self (fs : FS) (p : FPath) (c : List Nat) :
    fsLookup (fsWrite fs p c) p = some c := by
  simp [fsWrite, fsLookup]

lemma fsLookup_fsWrite_other (fs : FS) (p q : FPath) (c : List Nat)
    (h : q ≠ p) : fsLookup (fsWrite fs q c) p = fsLookup fs p := by
  simp [fsWrite, fsLookup, h]

lemma fsLookup_fsErase_self (fs : FS) (p : FPath) :
    fsLookup (fsErase fs p) p = none := by
  induction fs with
  | nil => simp [fsErase, fsLookup]
  | cons e rest ih =>
    by_cases h : e.1 = p
    · simpa [fsErase, h] using ih
    · simpa [fsErase, fsLookup, h] using ih

lemma pathJoin_inj (dest : FPath) (a b : String) :
    pathJoin dest a = pathJoin dest b ↔ a = b := by
  simp [pathJoin]

lemma fsLookup_foldl_write_of_not_mem (dest : FPath)
    (ms : List (String × List Nat)) (fs0 : FS) (p : FPath)
    (hp : ∀ m ∈ ms, pathJoin dest m.1 ≠ p) :
    fsLookup (ms.foldl (fun acc m => fsWrite acc (pathJoin dest m.1) m.2) fs0) p
      = fsLookup fs0 p := by
  induction ms generalizing fs0 with
  | nil => rfl
  | cons a rest ih =>
    have ha : pathJoin dest a.1 ≠ p := hp a (by simp)
    have hrest : ∀ m ∈ rest, pathJoin dest m.1 ≠ p :=
      fun m hm => hp m (by simp [hm])
    simpa [List.foldl_cons, ih _ hrest] using
      fsLookup_fsWrite_other fs0 p (pathJoin dest a.1) a.2 ha

lemma fsLookup_foldl_write_of_mem (dest : FPath)
    (ms : List (String × List Nat)) (fs0 : FS) (nm : String) (ct : List Nat)
    (hmem : (nm, ct) ∈ ms) (hnd : (ms.map Prod.fst).Nodup) :
    fsLookup (ms.foldl (fun acc m => fsWrite acc (pathJoin dest m.1) m.2) fs0)
      (pathJoin dest nm) = some ct := by
  induction ms generalizing fs0 with
  | nil => cases hmem
  | cons a rest ih =>
    rcases List.mem_cons.mp hmem with heq | htail
    · subst heq
      have h2 : (nm :: rest.map Prod.fst).Nodup := by simpa using hnd
      have hnot : nm ∉ rest.map Prod.fst := (List.nodup_cons.mp h2).1
      have hrest : ∀ m ∈ rest, pathJoin dest m.1 ≠ pathJoin dest nm := by
        intro m hm
        rw [Ne, pathJoin_inj]
        intro hcontra
        exact hnot (hcontra ▸ List.mem_map_of_mem Prod.fst hm)
      rw [List.foldl_cons, fsLookup_foldl_write_of_not_mem dest rest _ _ hrest]
      exact fsLookup_fsWrite_self fs0 (pathJoin dest nm) ct
    · have h2 : (a.1 :: rest.map Prod.fst).Nodup := by simpa using hnd
      have hnd' : (rest.map Prod.fst).Nodup := (List.nodup_cons.mp h2).2
      rw [List.foldl_cons]
      exact ih _ htail hnd'

/-! Shared lemmas about the polling loop and submission. -/

lemma wait_pending_terminal (pending : List Response) (final : Response)
    (hp : ∀ r ∈ pending, r.content = some JOB_IN_PROGRESS_CONTENT)
    (hf : final.content ≠ some JOB_IN_PROGRESS_CONTENT) :
    wait_for_response_to_get_request (pending ++ [final])
      = some (pending.length + 1, final) := by
  induction pending with
  | nil => simp [wait_for_response_to_get_request, hf]
  | cons r rest ih =>
    have hr : r.content = some JOB_IN_PROGRESS_CONTENT := hp r (by simp)
    have hrest : ∀ s ∈ rest, s.content = some JOB_IN_PROGRESS_CONTENT :=
      fun s hs => hp s (by simp [hs])
    simp [wait_for_response_to_get_request, hr, ih hrest]

lemma post_circuit_ok (r : Response) (pid msg : String)
    (hs : r.status_code = 200)
    (hpid : alistLookup r.json "pid" = some (.str pid))
    (hmsg : alistLookup r.json "message" = some (.str msg)) :
    _post_circuit r = .ok pid := by
  simp [_post_circuit, hs, check_response_has_keys, hpid, hmsg]

lemma post_circuit_null (r : Response) (msg : String)
    (hs : r.status_code = 200)
    (hpid : alistLookup r.json "pid" = some .null)
    (hmsg : alistLookup r.json "message" = some (.str msg)) :
    _post_circuit r = .error (.jobPostServerError msg) := by
  simp [_post_circuit, hs, check_response_has_keys, hpid, hmsg, messageOf]

lemma save_and_unpack_success (decode : TarDecoder) (tmpName : FPath)
    (fs : FS) (stream : List (List Nat)) (dest : FPath)
    (members : List (String × List Nat))
    (hdec : decode stream.flatten = some members) :
    _save_and_unpack_stream_response_to_folder decode tmpName fs stream dest
      = (.ok (), fsErase
          (members.foldl (fun acc m => fsWrite acc (pathJoin dest m.1) m.2)
            (fsWrite fs tmpName stream.flatten)) tmpName) := by
  simp [_save_and_unpack_stream_response_to_folder, _write_stream_to_tmp_file,
    _extract_archive_to_folder, fsLookup_fsWrite_self, hdec]

lemma get_result_success_eq {α : Type} (decode : TarDecoder)
    (load_result : FPath → α) (base : String) (resultsBase tmpName : FPath)
    (pid : String) (fs : FS) (pending : List Response) (final : Response)
    (members : List (String × List Nat))
    (hp : ∀ r ∈ pending, r.content = some JOB_IN_PROGRESS_CONTENT)
    (hf : final.content ≠ some JOB_IN_PROGRESS_CONTENT)
    (hstatus : alistLookup final.headers "Job-Status" = some "success")
    (hdec : decode final.iter_content.flatten = some members) :
    _get_result decode load_result base resultsBase tmpName pid fs
        (pending ++ [final])
      = some ⟨List.replicate (pending.length + 1)
            (Request.get (get_result_url base pid) []),
          [pathJoin (pathJoin resultsBase pid) "results.npy"],
          fsErase (members.foldl
              (fun acc m => fsWrite acc (pathJoin (pathJoin resultsBase pid) m.1) m.2)
              (fsWrite fs tmpName final.iter_content.flatten)) tmpName,
          .ok (some (load_result
            (pathJoin (pathJoin resultsBase pid) "results.npy")))⟩ := by
  simp [_get_result, wait_pending_terminal pending final hp hf, hstatus,
    save_and_unpack_success decode tmpName fs final.iter_content
      (pathJoin resultsBase pid) members hdec]

lemma run_circuit_success_eq {α : Type} (decode : TarDecoder)
    (load_result : FPath → α) (base : String) (resultsBase tmpName : FPath)
    (postResponse : Response) (pending : List Response) (final : Response)
    (fs : FS) (circuitRaw : String) (nshots : Nat) (device : String)
    (pid msg : String) (members : List (String × List Nat))
    (hs : postResponse.status_code = 200)
    (hpid : alistLookup postResponse.json "pid" = some (.str pid))
    (hmsg : alistLookup postResponse.json "message" = some (.str msg))
    (hp : ∀ r ∈ pending, r.content = some JOB_IN_PROGRESS_CONTENT)
    (hf : final.content ≠ some JOB_IN_PROGRESS_CONTENT)
    (hstatus : alistLookup final.headers "Job-Status" = some "success")
    (hdec : decode final.iter_content.flatten = some members) :
    run_circuit decode load_result base resultsBase tmpName postResponse
        (pending ++ [final]) fs circuitRaw nshots device
      = some ⟨Request.post (run_circuit_url base)
              (post_payload circuitRaw nshots device) []
            :: List.replicate (pending.length + 1)
              (Request.get (get_result_url base pid) []),
          [pathJoin (pathJoin resultsBase pid) "results.npy"],
          fsErase (members.foldl
              (fun acc m => fsWrite acc (pathJoin (pathJoin resultsBase pid) m.1) m.2)
              (fsWrite fs tmpName final.iter_content.flatten)) tmpName,
          .ok (some (load_result
            (pathJoin (pathJoin resultsBase pid) "results.npy")))⟩ := by
  simp [run_circuit, post_circuit_ok postResponse pid msg hs hpid hmsg,
    get_result_success_eq decode load_result base resultsBase tmpName pid fs
      pending final members hp hf hstatus hdec]

lemma get_result_requests_shape {α : Type} (decode : TarDecoder)
    (load_result : FPath → α) (base : String) (resultsBase tmpName : FPath)
    (pid : String) (fs : FS) (pollResponses : List Response)
    (out : GetResultOut α)
    (hout : _get_result decode load_result base resultsBase tmpName pid fs
        pollResponses = some out) :
    ∃ n, out.requests
      = List.replicate n (Request.get (get_result_url base pid) []) := by
  simp only [_get_result] at hout
  split at hout
  · simp at hout
  · split at hout
    · cases hout
      exact ⟨_, rfl⟩
    · split at hout
      · cases hout
        exact ⟨_, rfl⟩
      · split at hout
        · cases hout
          exact ⟨_, rfl⟩
        · cases hout
          exact ⟨_, rfl⟩

/-! Concrete scenario data mirroring the test suite's mocks, used by the
witness theorems below. -/

/-- The base URL the tests patch in. -/
def LOCAL_URL : String := "http://localhost:8000/"

/-- The locally installed qibo version the tests patch in. -/
def FAKE_QIBO_VERSION : String := "0.0.1"

/-- A concrete tar codec recognising exactly the bytes `[1, 2]` as a one-file
archive, as the in-memory fake archive of the tests. -/
def demoDecode : TarDecoder := fun b =>
  if b = [1, 2] then some [("member.npy", [1, 2])] else none

/-- Version-endpoint response with a matching version. -/
def versionOkResponse : Response :=
  { status_code := 200, json := [("qibo_version", .str FAKE_QIBO_VERSION)],
    headers := [], content := none, iter_content := [] }

/-- Submission response carrying pid `"123"`. -/
def postOkResponse : Response :=
  { status_code := 200,
    json := [("pid", .str "123"), ("message", .str "Success. Job posted")],
    headers := [], content := none, iter_content := [] }

/-- Submission response carrying a null pid and a server message. -/
def postNullResponse : Response :=
  { status_code := 200,
    json := [("pid", .null), ("message", .str "post job to queue failed")],
    headers := [], content := none, iter_content := [] }

/-- Poll response with the in-progress sentinel body. -/
def pendingResponse : Response :=
  { status_code := 200, json := [], headers := [],
    content := some JOB_IN_PROGRESS_CONTENT, iter_content := [] }

/-- Terminal poll response with no content and no headers (the `job_done`
response of the polling test). -/
def jobDoneResponse : Response :=
  { status_code := 200, json := [], headers := [], content := none,
    iter_content := [] }

/-- Terminal poll response, status success, streaming the fake archive. -/
def successResponse : Response :=
  { status_code := 200, json := [], headers := [("Job-Status", "success")],
    content := none, iter_content := [[1], [2]] }

/-- Terminal poll response, status error. -/
def errorStatusResponse : Response :=
  { status_code := 200, json := [], headers := [("Job-Status", "error")],
    content := none, iter_content := [[1], [2]] }

/-- The fixed temporary-file path the tests patch the factory to. -/
def demoTmpName : FPath := ["tmp", "file.tar.gz"]

/-- The results base folder of the tests. -/
def demoResultsBase : FPath := ["results"]

/-! Claim theorems. -/

/-- C2: for a submission POST response whose body carries pid `"123"`,
`_post_circuit` returns the job identifier `"123"`; for a body with null pid,
it raises `JobPostServerError` carrying the server-supplied message. -/
theorem post_circuit_pid_and_null_behaviour (r₁ r₂ : Response)
    (msg₁ msg₂ : String)
    (hs₁ : r₁.status_code = 200)
    (hpid₁ : alistLookup r₁.json "pid" = some (.str "123"))
    (hmsg₁ : alistLookup r₁.json "message" = some (.str msg₁))
    (hs₂ : r₂.status_code = 200)
    (hpid₂ : alistLookup r₂.json "pid" = some .null)
    (hmsg₂ : alistLookup r₂.json "message" = some (.str msg₂)) :
    _post_circuit r₁ = .ok "123"
      ∧ _post_circuit r₂ = .error (.jobPostServerError msg₂) :=
  ⟨post_circuit_ok r₁ "123" msg₁ hs₁ hpid₁ hmsg₁,
   post_circuit_null r₂ msg₂ hs₂ hpid₂ hmsg₂⟩

/-- Witness for C2 at the test's concrete responses. -/
theorem post_circuit_pid_and_null_behaviour_witness :
    _post_circuit postOkResponse = .ok "123"
      ∧ _post_circuit postNullResponse
        = .error (.jobPostServerError "post job to queue failed") :=
  post_circuit_pid_and_null_behaviour postOkResponse postNullResponse
    "Success. Job posted" "post job to queue failed"
    rfl rfl rfl rfl rfl rfl

/-- C3: given a version-endpoint response carrying the remote version string,
client construction succeeds precisely when the remote and local version
strings are equal, fails with the assertion-style fatal error on any unequal
pair, and issues exactly one GET to `{base}qibo_version/`. -/
theorem init_version_check_iff (base token localVersion remoteVersion : String)
    (get : String → Response)
    (hresp : alistLookup (get (qibo_version_url base)).json "qibo_version"
      = some (.str remoteVersion)) :
    ((TIIProvider_init base token localVersion get).client
        = .ok { token := token, pid := none } ↔ remoteVersion = localVersion)
    ∧ (remoteVersion ≠ localVersion →
        (TIIProvider_init base token localVersion get).client
          = .error .assertionError)
    ∧ (TIIProvider_init base token localVersion get).requests
        = [Request.get (qibo_version_url base) []] := by
  have hc : (TIIProvider_init base token localVersion get).client
      = if remoteVersion = localVersion then .ok { token := token, pid := none }
        else .error .assertionError := by
    by_cases h : remoteVersion = localVersion <;>
      simp [TIIProvider_init, check_client_server_qibo_versions,
        check_response_has_keys, hresp, h]
  refine ⟨?_, ?_, rfl⟩
  · rw [hc]
    by_cases h : remoteVersion = localVersion <;> simp [h]
  · intro h
    rw [hc, if_neg h]

/-- Witness for C3 at the test's concrete data (matching versions). -/
theorem init_version_check_iff_witness :
    ((TIIProvider_init LOCAL_URL "valid_token" FAKE_QIBO_VERSION
        (fun _ => versionOkResponse)).client
      = .ok { token := "valid_token", pid := none }
        ↔ FAKE_QIBO_VERSION = FAKE_QIBO_VERSION)
    ∧ (FAKE_QIBO_VERSION ≠ FAKE_QIBO_VERSION →
        (TIIProvider_init LOCAL_URL "valid_token" FAKE_QIBO_VERSION
          (fun _ => versionOkResponse)).client = .error .assertionError)
    ∧ (TIIProvider_init LOCAL_URL "valid_token" FAKE_QIBO_VERSION
        (fun _ => versionOkResponse)).requests
      = [Request.get (qibo_version_url LOCAL_URL) []] :=
  init_version_check_iff LOCAL_URL "valid_token" FAKE_QIBO_VERSION
    FAKE_QIBO_VERSION (fun _ => versionOkResponse) rfl

/-- C4: a polling sequence of N in-progress responses followed by one
terminal response makes the wait loop issue exactly N + 1 GETs and return the
final response. -/
theorem wait_for_response_counts_gets (pending : List Response)
    (final : Response)
    (hp : ∀ r ∈ pending, r.content = some JOB_IN_PROGRESS_CONTENT)
    (hf : final.content ≠ some JOB_IN_PROGRESS_CONTENT) :
    wait_for_response_to_get_request (pending ++ [final])
      = some (pending.length + 1, final) :=
  wait_pending_terminal pending final hp hf

/-- Witness for C4 with three pending responses, as in the polling test. -/
theorem wait_for_response_counts_gets_witness :
    wait_for_response_to_get_request
        ([pendingResponse, pendingResponse, pendingResponse]
          ++ [jobDoneResponse])
      = some ([pendingResponse, pendingResponse, pendingResponse].length + 1,
          jobDoneResponse) :=
  wait_for_response_counts_gets
    [pendingResponse, pendingResponse, pendingResponse] jobDoneResponse
    (by decide) (by decide)

/-- C6: for every byte stream, the temporary archive file does not exist
after `_save_and_unpack_stream_response_to_folder` completes, on the success
path and on the failing extraction path alike. -/
theorem save_and_unpack_removes_tmp_file (decode : TarDecoder)
    (tmpName : FPath) (fs : FS) (stream : List (List Nat)) (dest : FPath) :
    fsLookup
      (_save_and_unpack_stream_response_to_folder decode tmpName fs stream
        dest).2 tmpName = none := by
  simp only [_save_and_unpack_stream_response_to_folder,
    _write_stream_to_tmp_file]
  split <;> simp [fsLookup_fsErase_self]

/-- C7: extracting a valid gzip-tar archive writes every member's name and
content unchanged into the destination directory; extracting an existing file
that is not such an archive raises the typed archive read error. -/
theorem extract_archive_members_and_read_error (decode : TarDecoder)
    (fs : FS) (src dest : FPath) (bytes : List Nat)
    (hsrc : fsLookup fs src = some bytes) :
    (∀ members, decode bytes = some members → (members.map Prod.fst).Nodup →
      ∃ fs2, _extract_archive_to_folder decode fs src dest = .ok fs2
        ∧ ∀ nm ct, (nm, ct) ∈ members →
            fsLookup fs2 (pathJoin dest nm) = some ct)
    ∧ (decode bytes = none →
        _extract_archive_to_folder decode fs src dest
          = .error .tarReadError) := by
  constructor
  · intro members hm hnd
    have heq : _extract_archive_to_folder decode fs src dest
        = .ok (members.foldl
            (fun acc m => fsWrite acc (pathJoin dest m.1) m.2) fs) := by
      simp [_extract_archive_to_folder, hsrc, hm]
    exact ⟨_, heq,
      fun nm ct hmem => fsLookup_foldl_write_of_mem dest members fs nm ct
        hmem hnd⟩
  · intro hn
    simp [_extract_archive_to_folder, hsrc, hn]

/-- Witness for C7 at a concrete one-file archive. -/
theorem extract_archive_members_and_read_error_witness :
    (∀ members, demoDecode [1, 2] = some members
        → (members.map Prod.fst).Nodup →
      ∃ fs2, _extract_archive_to_folder demoDecode
          [(["file.tar.gz"], [1, 2])] ["file.tar.gz"] ["dest"] = .ok fs2
        ∧ ∀ nm ct, (nm, ct) ∈ members →
            fsLookup fs2 (pathJoin ["dest"] nm) = some ct)
    ∧ (demoDecode [1, 2] = none →
        _extract_archive_to_folder demoDecode [(["file.tar.gz"], [1, 2])]
          ["file.tar.gz"] ["dest"] = .error .tarReadError) :=
  extract_archive_members_and_read_error demoDecode
    [(["file.tar.gz"], [1, 2])] ["file.tar.gz"] ["dest"] [1, 2] rfl

/-- C1: in a run where submission returns pid `"123"` and a subsequent poll
resolves with Job-Status `success` carrying a valid archive stream, result
retrieval (run_circuit, via `_get_result`) returns the path
`{results_base}/123/results.npy` and invokes the external result loader
exactly once with exactly that path (the loader is the identity collaborator,
as in the tests). -/
theorem run_circuit_success_returns_expected_path (decode : TarDecoder)
    (base : String) (resultsBase tmpName : FPath) (postResponse : Response)
    (pending : List Response) (final : Response) (fs : FS)
    (circuitRaw msg : String) (nshots : Nat) (device : String)
    (members : List (String × List Nat))
    (hs : postResponse.status_code = 200)
    (hpid : alistLookup postResponse.json "pid" = some (.str "123"))
    (hmsg : alistLookup postResponse.json "message" = some (.str msg))
    (hp : ∀ r ∈ pending, r.content = some JOB_IN_PROGRESS_CONTENT)
    (hf : final.content ≠ some JOB_IN_PROGRESS_CONTENT)
    (hstatus : alistLookup final.headers "Job-Status" = some "success")
    (hdec : decode final.iter_content.flatten = some members) :
    ∃ out, run_circuit decode (fun p => p) base resultsBase tmpName
        postResponse (pending ++ [final]) fs circuitRaw nshots device
        = some out
      ∧ out.outcome = .ok (some (resultsBase ++ ["123", "results.npy"]))
      ∧ out.loaderCalls = [resultsBase ++ ["123", "results.npy"]] := by
  refine ⟨_, run_circuit_success_eq decode (fun p => p) base resultsBase
    tmpName postResponse pending final fs circuitRaw nshots device "123" msg
    members hs hpid hmsg hp hf hstatus hdec, ?_, ?_⟩ <;>
    simp [pathJoin]

/-- Witness for C1 at the test scenario: pid `"123"`, two pending polls, one
success poll streaming the one-file fake archive. -/
theorem run_circuit_success_returns_expected_path_witness :
    ∃ out, run_circuit demoDecode (fun p => p) LOCAL_URL demoResultsBase
        demoTmpName postOkResponse
        ([pendingResponse, pendingResponse] ++ [successResponse]) [] "raw"
        100 "sim" = some out
      ∧ out.outcome = .ok (some (demoResultsBase ++ ["123", "results.npy"]))
      ∧ out.loaderCalls = [demoResultsBase ++ ["123", "results.npy"]] :=
  run_circuit_success_returns_expected_path demoDecode LOCAL_URL
    demoResultsBase demoTmpName postOkResponse
    [pendingResponse, pendingResponse] successResponse [] "raw"
    "Success. Job posted" 100 "sim" [("member.npy", [1, 2])]
    rfl rfl rfl (by decide) (by decide) rfl rfl

/-- C5: when the poll resolves with Job-Status `error`, `_get_result` returns
no result and the external result loader is never invoked. -/
theorem get_result_error_status_returns_none {α : Type} (decode : TarDecoder)
    (load_result : FPath → α) (base : String) (resultsBase tmpName : FPath)
    (pid : String) (fs : FS) (pending : List Response) (final : Response)
    (hp : ∀ r ∈ pending, r.content = some JOB_IN_PROGRESS_CONTENT)
    (hf : final.content ≠ some JOB_IN_PROGRESS_CONTENT)
    (hstatus : alistLookup final.headers "Job-Status" = some "error") :
    _get_result decode load_result base resultsBase tmpName pid fs
        (pending ++ [final])
      = some ⟨List.replicate (pending.length + 1)
            (Request.get (get_result_url base pid) []),
          [], fs, .ok none⟩ := by
  simp [_get_result, wait_pending_terminal pending final hp hf, hstatus]

/-- Witness for C5 at the test scenario with an errored job. -/
theorem get_result_error_status_returns_none_witness :
    _get_result demoDecode (fun p => p) LOCAL_URL demoResultsBase demoTmpName
        "123" [] ([pendingResponse] ++ [errorStatusResponse])
      = some ⟨List.replicate ([pendingResponse].length + 1)
            (Request.get (get_result_url LOCAL_URL "123") []),
          [], [], .ok none⟩ :=
  get_result_error_status_returns_none demoDecode (fun p => p) LOCAL_URL
    demoResultsBase demoTmpName "123" [] [pendingResponse]
    errorStatusResponse (by decide) (by decide) rfl

/-- C8: when the server reports a post failure (null pid), `run_circuit` does
not propagate `JobPostServerError` to its caller: it stops and returns
nothing, with no result produced and no further requests issued. -/
theorem run_circuit_post_failure_returns_none {α : Type} (decode : TarDecoder)
    (load_result : FPath → α) (base : String) (resultsBase tmpName : FPath)
    (postResponse : Response) (pollResponses : List Response) (fs : FS)
    (circuitRaw : String) (nshots : Nat) (device : String) (msg : String)
    (hs : postResponse.status_code = 200)
    (hpid : alistLookup postResponse.json "pid" = some .null)
    (hmsg : alistLookup postResponse.json "message" = some (.str msg)) :
    run_circuit decode load_result base resultsBase tmpName postResponse
        pollResponses fs circuitRaw nshots device
      = some ⟨[Request.post (run_circuit_url base)
            (post_payload circuitRaw nshots device) []],
          [], fs, .ok none⟩ := by
  simp [run_circuit, post_circuit_null postResponse msg hs hpid hmsg]

/-- Witness for C8 at the test's null-pid response. -/
theorem run_circuit_post_failure_returns_none_witness :
    run_circuit demoDecode (fun p : FPath => p) LOCAL_URL demoResultsBase
        demoTmpName postNullResponse [] [] "raw" 100 "sim"
      = some ⟨[Request.post (run_circuit_url LOCAL_URL)
            (post_payload "raw" 100 "sim") []],
          [], [], .ok none⟩ :=
  run_circuit_post_failure_returns_none demoDecode (fun p => p) LOCAL_URL
    demoResultsBase demoTmpName postNullResponse [] [] "raw" 100 "sim"
    "post job to queue failed" rfl rfl rfl

/-- C9 counterexample: in the concrete construction run of the version-match
test, not every request issued by the client carries the bearer credential
header — the version GET is issued with the URL as its only argument and no
headers at all. -/
theorem bearer_header_counterexample :
    ¬ ∀ r ∈ (TIIProvider_init LOCAL_URL "valid_token" FAKE_QIBO_VERSION
        (fun _ => versionOkResponse)).requests,
      hasBearerHeader "valid_token" r := by
  intro h
  have := h (Request.get (qibo_version_url LOCAL_URL) []) (by
    simp [TIIProvider_init])
  simp [hasBearerHeader, Request.extraHeaders] at this

/-- C9 amended: no HTTP request issued by the client carries any
client-attached header at all — the construction-time version GET, the
submission POST and every polling GET are issued with the URL (and, for the
POST, the JSON body) alone, so in particular no bearer credential header is
attached. -/
theorem requests_carry_no_custom_headers {α : Type} (decode : TarDecoder)
    (load_result : FPath → α) (base token localVersion : String)
    (get : String → Response) (resultsBase tmpName : FPath)
    (postResponse : Response) (pollResponses : List Response) (fs : FS)
    (circuitRaw : String) (nshots : Nat) (device : String)
    (out : GetResultOut α)
    (hrun : run_circuit decode load_result base resultsBase tmpName
        postResponse pollResponses fs circuitRaw nshots device = some out) :
    (∀ r ∈ (TIIProvider_init base token localVersion get).requests,
        r.extraHeaders = [])
      ∧ ∀ r ∈ out.requests, r.extraHeaders = [] := by
  constructor
  · intro r hr
    simp [TIIProvider_init] at hr
    subst hr
    rfl
  · simp only [run_circuit] at hrun
    split at hrun
    · cases hrun
      intro r hr
      simp at hr
      subst hr
      rfl
    · cases hrun
      intro r hr
      simp at hr
      subst hr
      rfl
    · next pid heq =>
      split at hrun
      · simp at hrun
      · next o heq2 =>
        cases hrun
        intro r hr
        rcases List.mem_cons.mp hr with h | h
        · subst h
          rfl
        · obtain ⟨n, hshape⟩ := get_result_requests_shape decode load_result
            base resultsBase tmpName pid fs pollResponses o heq2
          rw [hshape] at h
          rw [List.eq_of_mem_replicate h]
          rfl

/-- Witness for C9 amended at the concrete success scenario. -/
theorem requests_carry_no_custom_headers_witness :
    (∀ r ∈ (TIIProvider_init LOCAL_URL "valid_token" FAKE_QIBO_VERSION
        (fun _ => versionOkResponse)).requests, r.extraHeaders = [])
      ∧ ∀ r ∈ (⟨[Request.post (run_circuit_url LOCAL_URL)
              (post_payload "raw" 100 "sim") []],
            [], [], .ok none⟩ : GetResultOut FPath).requests,
          r.extraHeaders = [] :=
  requests_carry_no_custom_headers demoDecode (fun p => p) LOCAL_URL
    "valid_token" FAKE_QIBO_VERSION (fun _ => versionOkResponse)
    demoResultsBase demoTmpName postNullResponse [] [] "raw" 100 "sim"
    ⟨[Request.post (run_circuit_url LOCAL_URL)
        (post_payload "raw" 100 "sim") []], [], [], .ok none⟩
    (run_circuit_post_failure_returns_none demoDecode (fun p => p) LOCAL_URL
      demoResultsBase demoTmpName postNullResponse [] [] "raw" 100 "sim"
      "post job to queue failed" rfl rfl rfl)

/-- C10: `run_circuit` can be called with only the circuit argument — the
shot count and device parameters take library-supplied defaults — and such a
call runs the same submit, poll and fetch pipeline as a call passing them
explicitly: it issues the submission POST with the default parameter values
and returns the fetched result. -/
theorem run_circuit_default_args_same_pipeline (decode : TarDecoder)
    (base : String) (resultsBase tmpName : FPath) (postResponse : Response)
    (pending : List Response) (final : Response) (fs : FS)
    (circuitRaw msg : String) (members : List (String × List Nat))
    (hs : postResponse.status_code = 200)
    (hpid : alistLookup postResponse.json "pid" = some (.str "123"))
    (hmsg : alistLookup postResponse.json "message" = some (.str msg))
    (hp : ∀ r ∈ pending, r.content = some JOB_IN_PROGRESS_CONTENT)
    (hf : final.content ≠ some JOB_IN_PROGRESS_CONTENT)
    (hstatus : alistLookup final.headers "Job-Status" = some "success")
    (hdec : decode final.iter_content.flatten = some members) :
    run_circuit_default decode (fun p => p) base resultsBase tmpName
        postResponse (pending ++ [final]) fs circuitRaw
      = run_circuit decode (fun p => p) base resultsBase tmpName postResponse
          (pending ++ [final]) fs circuitRaw DEFAULT_NSHOTS DEFAULT_DEVICE
    ∧ ∃ out, run_circuit_default decode (fun p => p) base resultsBase tmpName
          postResponse (pending ++ [final]) fs circuitRaw = some out
        ∧ out.outcome = .ok (some (resultsBase ++ ["123", "results.npy"]))
        ∧ out.requests.head? = some (Request.post (run_circuit_url base)
            (post_payload circuitRaw DEFAULT_NSHOTS DEFAULT_DEVICE) []) := by
  have h := run_circuit_success_eq decode (fun p : FPath => p) base
    resultsBase tmpName postResponse pending final fs circuitRaw
    DEFAULT_NSHOTS DEFAULT_DEVICE "123" msg members hs hpid hmsg hp hf
    hstatus hdec
  refine ⟨rfl, ⟨_, h, ?_, rfl⟩⟩
  simp [pathJoin]

/-- Witness for C10 at the test scenario. -/
theorem run_circuit_default_args_same_pipeline_witness :
    run_circuit_default demoDecode (fun p => p) LOCAL_URL demoResultsBase
        demoTmpName postOkResponse
        ([pendingResponse, pendingResponse] ++ [successResponse]) [] "raw"
      = run_circuit demoDecode (fun p => p) LOCAL_URL demoResultsBase
          demoTmpName postOkResponse
          ([pendingResponse, pendingResponse] ++ [successResponse]) [] "raw"
          DEFAULT_NSHOTS DEFAULT_DEVICE
    ∧ ∃ out, run_circuit_default demoDecode (fun p => p) LOCAL_URL
          demoResultsBase demoTmpName postOkResponse
          ([pendingResponse, pendingResponse] ++ [successResponse]) [] "raw"
          = some out
        ∧ out.outcome
          = .ok (some (demoResultsBase ++ ["123", "results.npy"]))
        ∧ out.requests.head? = some (Request.post (run_circuit_url LOCAL_URL)
            (post_payload "raw" DEFAULT_NSHOTS DEFAULT_DEVICE) []) :=
  run_circuit_default_args_same_pipeline demoDecode LOCAL_URL demoResultsBase
    demoTmpName postOkResponse [pendingResponse, pendingResponse]
    successResponse [] "raw" "Success. Job posted" [("member.npy", [1, 2])]
    rfl rfl rfl (by decide) (by decide) rfl rfl
